import Mathlib

/-!
Shallow embedding of the document-integrity workflow implemented in
`src/frontend/src/App.js` of the FDS-Project repository.

The React component `App` holds six pieces of state (`file`, `docHash`,
`status`, `result`, `loading`, `errorMessage`); we model them as the fields
of `AppState`.  The three event handlers (`handleFileChange`,
`handleRegister`, `handleVerify`) are modelled as pure state transformers.
Each handler awaits exactly one external interaction (the SubtleCrypto
hash, or one axios POST); we pass the outcome of that interaction as an
explicit argument (`HashOutcome`, `RegisterOutcome`, `VerifyOutcome`),
and the register/verify handlers additionally return the list of HTTP
requests they issued, so that "no request is sent" is expressible.
-/

/-- The DOM `File` object, as used by `App.js`: `name`, `size`, `type`
are read for the register payload, `content` is the byte sequence read
by the `FileReader` and hashed. -/
structure File where
  name : String
  size : Nat
  type : String
  content : List Nat
  deriving DecidableEq

/-- `response.data.receipt` of a successful register call (App.js line 86). -/
structure Receipt where
  transactionHash : String
  deriving DecidableEq

/-- `response.data` of a successful register call. -/
structure RegisterData where
  receipt : Receipt
  deriving DecidableEq

/-- The `onChainData` facet of a verify response (App.js lines 190-199). -/
structure OnChainData where
  owner : String
  txHash : Option String
  blockNumber : Option Nat
  blockTimestamp : Option Nat
  deriving DecidableEq

/-- The `offChainData` facet of a verify response (App.js lines 186-188). -/
structure OffChainData where
  filename : String
  deriving DecidableEq

/-- `response.data` of a successful verify call (App.js lines 111-124). -/
structure VerifyData where
  status : String
  onChainData : Option OnChainData
  offChainData : Option OffChainData
  deriving DecidableEq

/-- The value stored in the `result` state variable: either a register
response or a verify response. -/
inductive ResultData where
  | registered (data : RegisterData)
  | verified (data : VerifyData)
  deriving DecidableEq

/-- The component state of `App` (App.js lines 31-36). -/
structure AppState where
  file : Option File
  docHash : String
  status : String
  result : Option ResultData
  loading : Bool
  errorMessage : String
  deriving DecidableEq

/-- The initial state of `App` (the `useState` initialisers, lines 31-36). -/
def initialState : AppState :=
  { file := none, docHash := "", status := "Select a file to begin...",
    result := none, loading := false, errorMessage := "" }

/-- An axios error, as consumed by the catch blocks (lines 88-92, 126-130):
`responseMessage` models the optional chain `error.response?.data?.message`
(`none` when there is no response body or no `message` field), `message`
models the transport error text `error.message`. -/
structure RequestError where
  responseMessage : Option String
  message : String
  deriving DecidableEq

/-- Values occurring in a JSON request body sent to the backend. A
`bytes` constructor is included so that the wire language is able to
carry raw file content, and we can state that the handlers never put it
there. -/
inductive JsonVal where
  | str (s : String)
  | num (n : Nat)
  | bytes (bs : List Nat)
  deriving DecidableEq

/-- An HTTP request issued by a handler: either a POST to
`/api/documents/register` or a POST to `/api/documents/verify`, with its
JSON body as a key-value list. -/
inductive ApiRequest where
  | registerReq (body : List (String × JsonVal))
  | verifyReq (body : List (String × JsonVal))
  deriving DecidableEq

/-- Outcome of `await calculateSha256(selectedFile)`: resolution with a
hash string, or rejection with an error whose `message` we record. -/
inductive HashOutcome where
  | success (hash : String)
  | failure (message : String)
  deriving DecidableEq

/-- Outcome of `await axios.post(API_URL/register, payload)`. -/
inductive RegisterOutcome where
  | success (data : RegisterData)
  | failure (error : RequestError)
  deriving DecidableEq

/-- Outcome of `await axios.post(API_URL/verify, ...)`. -/
inductive VerifyOutcome where
  | success (data : VerifyData)
  | failure (error : RequestError)
  deriving DecidableEq

/-- JS `s.padStart(len, c)`: left-pad `s` with `c` up to length `len`. -/
def padStart (len : Nat) (c : Char) (s : String) : String :=
  String.mk (List.replicate (len - s.length) c) ++ s

/-- App.js line 19, `b.toString(16).padStart(2, '0')`: a byte rendered as
two zero-padded lower-case hex characters.  JS `Number.toString(16)` on a
natural number is exactly `Nat.toDigits 16` (lower-case digits, no
leading zeros, `"0"` for zero). -/
def byteToHex (b : Nat) : String :=
  padStart 2 '0' (String.mk (Nat.toDigits 16 b))

/-- App.js lines 18-19: `hashArray.map(b => ...).join('')`. -/
def hexOfBytes (hashArray : List Nat) : String :=
  String.join (hashArray.map byteToHex)

/-- `calculateSha256` (App.js lines 8-28) on the success path: the file's
bytes are read in full and fed to `window.crypto.subtle.digest('SHA-256', ...)`,
modelled by the abstract primitive `subtleDigest`, and the resulting
bytes are hex-encoded. -/
def calculateSha256 (subtleDigest : List Nat → List Nat) (f : File) : String :=
  hexOfBytes (subtleDigest f.content)

/-- True of the characters `0`-`9` and `a`-`f`. -/
def isLowerHexChar (c : Char) : Bool :=
  (48 ≤ c.toNat && c.toNat ≤ 57) || (97 ≤ c.toNat && c.toNat ≤ 102)

/-- `handleFileChange` (App.js lines 38-62).  `selected` is
`e.target.files[0]` (`none` when the selection event delivers no file);
`outcome` is the settlement of `await calculateSha256(selectedFile)`. -/
def handleFileChange (st : AppState) (selected : Option File)
    (outcome : HashOutcome) : AppState :=
  match selected with
  | some selectedFile =>
    let st1 : AppState :=
      { st with file := some selectedFile, result := none, errorMessage := "",
                status := "Calculating SHA-256 for: " ++ selectedFile.name ++ "...",
                loading := true }
    let st2 : AppState :=
      match outcome with
      | .success hash =>
        { st1 with docHash := hash,
                   status := "Hash calculated: " ++ hash.take 10 ++ "..." }
      | .failure msg =>
        { st1 with status := "Error calculating hash.", errorMessage := msg }
    { st2 with loading := false }
  | none =>
    { st with file := none, docHash := "",
              status := "Select a file to begin..." }

/-- The register payload (App.js lines 76-82). -/
def registerPayload (docHash : String) (file : File) : List (String × JsonVal) :=
  [("docHash", JsonVal.str docHash),
   ("filename", JsonVal.str file.name),
   ("filesize", JsonVal.num file.size),
   ("mimeType", JsonVal.str file.type),
   ("uploader", JsonVal.str "ClientDemoUser")]

/-- `error.response?.data?.message || error.message` (App.js lines 89 and
127).  JS `||` falls through on every falsy value, so a present but empty
backend message also yields the transport message. -/
def extractErrorMessage (error : RequestError) : String :=
  match error.responseMessage with
  | some m => if m = "" then error.message else m
  | none => error.message

/-- `handleRegister` (App.js lines 65-96).  Returns the updated state and
the list of HTTP requests issued during the call: empty when the
`!docHash || !file` guard fires, otherwise the single register POST. -/
def handleRegister (st : AppState) (outcome : RegisterOutcome) :
    AppState × List ApiRequest :=
  match st.file with
  | none => (st, [])
  | some file =>
    if st.docHash = "" then (st, [])
    else
      let st1 : AppState :=
        { st with loading := true, result := none, errorMessage := "",
                  status := "Attempting to register on-chain..." }
      let payload := registerPayload st.docHash file
      let st2 : AppState :=
        match outcome with
        | .success data =>
          { st1 with
              status := "✅ Registered! TX: " ++
                data.receipt.transactionHash.take 10 ++ "...",
              result := some (ResultData.registered data) }
        | .failure error =>
          { st1 with
              errorMessage := "Registration Failed: " ++ extractErrorMessage error,
              status := "Registration failed." }
      ({ st2 with loading := false }, [ApiRequest.registerReq payload])

/-- `handleVerify` (App.js lines 99-134).  Returns the updated state and
the list of HTTP requests issued during the call. -/
def handleVerify (st : AppState) (outcome : VerifyOutcome) :
    AppState × List ApiRequest :=
  match st.file with
  | none => (st, [])
  | some _ =>
    if st.docHash = "" then (st, [])
    else
      let st1 : AppState :=
        { st with loading := true, result := none, errorMessage := "",
                  status := "Checking integrity against on-chain record..." }
      let st2 : AppState :=
        match outcome with
        | .success data =>
          let newStatus :=
            if data.status = "VERIFIED_OK" then
              "✅ Integrity **VERIFIED**. Document is original and registered on-chain."
            else if data.status = "VERIFIED_ON_CHAIN_ONLY" then
              "⚠️ Hash found on-chain, but off-chain metadata is missing. Integrity check **OK**."
            else
              "❌ Not found on-chain. Document is UNREGISTERED or TAMPERED."
          { st1 with status := newStatus,
                     result := some (ResultData.verified data) }
        | .failure error =>
          { st1 with
              errorMessage := "Verification Failed: " ++ extractErrorMessage error,
              status := "Verification failed." }
      ({ st2 with loading := false },
       [ApiRequest.verifyReq [("docHash", JsonVal.str st.docHash)]])

/-- A concrete file used in witnesses and counterexamples. -/
def fileA : File :=
  { name := "a.txt", size := 3, type := "text/plain", content := [97, 98, 99] }

/-- A second concrete file, distinct from `fileA`. -/
def fileB : File :=
  { name := "b.txt", size := 1, type := "text/plain", content := [100] }

/-- A state whose digest is ready and no action is in flight. -/
def readyState : AppState :=
  { file := some fileA, docHash := "d1d1", status := "Hash calculated: d1d1...",
    result := none, loading := false, errorMessage := "" }

/-- A state whose digest is ready while an action is already in flight
(`loading = true`). -/
def busyState : AppState :=
  { file := some fileA, docHash := "d1d1",
    status := "Attempting to register on-chain...",
    result := none, loading := true, errorMessage := "" }

/-! ## Helper lemmas for the hex-encoding of digests -/

set_option maxRecDepth 4096 in
/-- Every byte value renders as exactly two characters, all of them
lower-case hex digits (checked exhaustively over the 256 byte values). -/
theorem byteToHex_two_lower_hex :
    ∀ b < 256, (byteToHex b).data.length = 2 ∧ (byteToHex b).data.all isLowerHexChar = true := by
  decide

/-- Folding string append over a list concatenates the character data. -/
theorem foldl_append_data (l : List String) (acc : String) :
    (l.foldl (fun r s => r ++ s) acc).data = acc.data ++ (l.map String.data).flatten := by
  induction l generalizing acc with
  | nil => simp
  | cons s t ih => simp [List.foldl, ih, String.data_append, List.append_assoc]

/-- The character data of `hexOfBytes` is the concatenation of the
per-byte renderings. -/
theorem hexOfBytes_data (l : List Nat) :
    (hexOfBytes l).data = ((l.map byteToHex).map String.data).flatten := by
  have h := foldl_append_data (l.map byteToHex) ""
  simpa [hexOfBytes, String.join] using h

/-! ## Claims -/

/-- Claim C1: for every verify response, the verdict classification
follows the decision table on the response's `status` field alone:
`VERIFIED_OK` yields the VERIFIED status line, `VERIFIED_ON_CHAIN_ONLY`
yields the on-chain-only status line, and every other status yields the
NOT_FOUND status line, independently of the `onChainData`/`offChainData`
facets. -/
theorem verify_verdict_classification (st : AppState) (f : File) (d : VerifyData)
    (hd : st.docHash ≠ "") (hf : st.file = some f) :
    (d.status = "VERIFIED_OK" →
      (handleVerify st (.success d)).1.status =
        "✅ Integrity **VERIFIED**. Document is original and registered on-chain.") ∧
    (d.status = "VERIFIED_ON_CHAIN_ONLY" →
      (handleVerify st (.success d)).1.status =
        "⚠️ Hash found on-chain, but off-chain metadata is missing. Integrity check **OK**.") ∧
    (d.status ≠ "VERIFIED_OK" → d.status ≠ "VERIFIED_ON_CHAIN_ONLY" →
      (handleVerify st (.success d)).1.status =
        "❌ Not found on-chain. Document is UNREGISTERED or TAMPERED.") ∧
    (∀ oc oc' : Option OnChainData, ∀ off off' : Option OffChainData,
      (handleVerify st (.success { d with onChainData := oc, offChainData := off })).1.status =
      (handleVerify st (.success { d with onChainData := oc', offChainData := off' })).1.status) := by
  unfold handleVerify
  rw [hf]
  simp only [if_neg hd]
  refine ⟨fun h => by simp [h], fun h => by simp [h], fun h1 h2 => by simp [h1, h2], ?_⟩
  intro oc oc' off off'
  simp

/-- Claim C1, witness: a concrete `VERIFIED_OK` response on a ready state
classifies to the VERIFIED status line. -/
theorem verify_verdict_classification_witness :
    (handleVerify readyState
        (.success { status := "VERIFIED_OK", onChainData := none, offChainData := none })).1.status =
      "✅ Integrity **VERIFIED**. Document is original and registered on-chain." :=
  (verify_verdict_classification readyState fileA
    { status := "VERIFIED_OK", onChainData := none, offChainData := none }
    (by decide) rfl).1 rfl

/-- Claim C2, counterexample: re-selecting a file does not discard the
previous digest before processing — starting from a state whose digest is
`"d1d1"`, selecting a new file whose hashing fails leaves `"d1d1"` (a
non-empty digest of the previously selected file) in the session. -/
theorem stale_digest_counterexample :
    readyState.docHash = "d1d1" ∧ ("d1d1" : String) ≠ "" ∧
    (handleFileChange readyState (some fileB) (.failure "read failed")).docHash = "d1d1" := by
  refine ⟨rfl, by decide, rfl⟩

/-- Claim C2 (amended): selecting a new file discards the prior result
state before processing, but not the prior digest: the digest is replaced
only when hashing of the new file succeeds, and after a new selection
whose hashing fails the digest of the previously selected file remains. -/
theorem file_selection_reset (st : AppState) (f : File) (msg hash : String) :
    (handleFileChange st (some f) (.failure msg)).docHash = st.docHash ∧
    (handleFileChange st (some f) (.success hash)).docHash = hash ∧
    (∀ out, (handleFileChange st (some f) out).result = none ∧
            (handleFileChange st (some f) out).file = some f) := by
  refine ⟨rfl, rfl, fun out => ?_⟩
  cases out <;> exact ⟨rfl, rfl⟩

/-- Claim C3, counterexample: in a state whose digest is ready but in
which an action is already in flight (`loading = true`), invoking
register or verify again is not rejected by the controller: each issues
a new Service Client request. -/
theorem inflight_reinvocation_counterexample :
    busyState.loading = true ∧ busyState.docHash ≠ "" ∧ busyState.file = some fileA ∧
    (handleRegister busyState
        (.success { receipt := { transactionHash := "0xabc" } })).2 =
      [ApiRequest.registerReq (registerPayload "d1d1" fileA)] ∧
    (handleVerify busyState
        (.success { status := "NOT_FOUND", onChainData := none, offChainData := none })).2 =
      [ApiRequest.verifyReq [("docHash", JsonVal.str "d1d1")]] := by
  refine ⟨rfl, by decide, rfl, rfl, rfl⟩

/-- Claim C3 (amended): the controller's own guard checks only that a
digest and a file are ready; it does not consult the in-flight flag, so
with a ready digest a register or verify invocation issues a request
whatever the value of `loading` — in-flight exclusivity is enforced only
by the presentation surface disabling the buttons. -/
theorem guard_ignores_loading (st : AppState) (f : File) (b : Bool)
    (ro : RegisterOutcome) (vo : VerifyOutcome)
    (hd : st.docHash ≠ "") (hf : st.file = some f) :
    (handleRegister { st with loading := b } ro).2 ≠ [] ∧
    (handleVerify { st with loading := b } vo).2 ≠ [] := by
  unfold handleRegister handleVerify
  simp only [hf]
  simp [hd]

/-- Claim C3 (amended), witness: with `loading = true` and a ready digest
both handlers still issue a request. -/
theorem guard_ignores_loading_witness :
    (handleRegister { readyState with loading := true }
        (.success { receipt := { transactionHash := "0xabc" } })).2 ≠ [] ∧
    (handleVerify { readyState with loading := true }
        (.success { status := "NOT_FOUND", onChainData := none, offChainData := none })).2 ≠ [] :=
  guard_ignores_loading readyState fileA true _ _ (by decide) rfl

/-- Claim C4: whenever no digest is ready (empty digest or no selected
file), register and verify return with the state unchanged and without
issuing any Service Client request. -/
theorem reject_without_digest (st : AppState) (ro : RegisterOutcome) (vo : VerifyOutcome)
    (h : st.docHash = "" ∨ st.file = none) :
    handleRegister st ro = (st, []) ∧ handleVerify st vo = (st, []) := by
  unfold handleRegister handleVerify
  rcases h with h | h
  · cases hf : st.file <;> simp [h]
  · rw [h]
    exact ⟨rfl, rfl⟩

/-- Claim C4, witness: in the initial state (empty digest) both handlers
reject without a request. -/
theorem reject_without_digest_witness :
    handleRegister initialState (.failure { responseMessage := none, message := "down" }) =
      (initialState, []) ∧
    handleVerify initialState (.failure { responseMessage := none, message := "down" }) =
      (initialState, []) :=
  reject_without_digest initialState _ _ (Or.inl rfl)

/-- Claim C5: a failing register or verify action leaves the session's
digest and file selection exactly as they were before the action, so the
user can retry without rehashing. -/
theorem failure_preserves_digest_and_file (st : AppState) (error : RequestError) :
    (handleRegister st (.failure error)).1.docHash = st.docHash ∧
    (handleRegister st (.failure error)).1.file = st.file ∧
    (handleVerify st (.failure error)).1.docHash = st.docHash ∧
    (handleVerify st (.failure error)).1.file = st.file := by
  unfold handleRegister handleVerify
  cases hf : st.file with
  | none => exact ⟨rfl, hf, rfl, hf⟩
  | some f =>
    by_cases hh : st.docHash = "" <;> simp [hh, hf]

/-- Claim C6: for every input whose digest primitive returns a 256-bit
digest (32 bytes), the hashing operation returns a string of exactly 64
characters, all of them lower-case hexadecimal digits: each digest byte
renders as exactly two zero-padded lower-case hex characters. -/
theorem calculateSha256_hex_format (subtleDigest : List Nat → List Nat) (f : File)
    (hlen : (subtleDigest f.content).length = 32)
    (hbyte : ∀ b ∈ subtleDigest f.content, b < 256) :
    (calculateSha256 subtleDigest f).length = 64 ∧
    (calculateSha256 subtleDigest f).data.all isLowerHexChar = true := by
  have hdata := hexOfBytes_data (subtleDigest f.content)
  constructor
  · show (calculateSha256 subtleDigest f).data.length = 64
    unfold calculateSha256
    rw [hdata, List.length_flatten, List.map_map, List.map_map]
    have : (subtleDigest f.content).map ((List.length ∘ String.data) ∘ byteToHex) =
        (subtleDigest f.content).map (fun _ => 2) := by
      apply List.map_congr_left
      intro b hb
      exact (byteToHex_two_lower_hex b (hbyte b hb)).1
    rw [this, List.map_const', List.sum_replicate, smul_eq_mul, hlen]
  · unfold calculateSha256
    rw [List.all_eq_true]
    intro c hc
    rw [hdata, List.map_map] at hc
    rcases List.mem_flatten.1 hc with ⟨cs, hcs, hccs⟩
    rcases List.mem_map.1 hcs with ⟨b, hb, rfl⟩
    have h2 := (byteToHex_two_lower_hex b (hbyte b hb)).2
    exact (List.all_eq_true.1 h2) c hccs

/-- Claim C6, witness: with the digest primitive returning the 32 bytes
`0..31`, the rendered digest has 64 lower-case hex characters. -/
theorem calculateSha256_hex_format_witness :
    (calculateSha256 (fun _ => List.range 32) fileA).length = 64 ∧
    (calculateSha256 (fun _ => List.range 32) fileA).data.all isLowerHexChar = true :=
  calculateSha256_hex_format (fun _ => List.range 32) fileA (by simp) (by decide)

/-- Claim C7: the register request body contains exactly the fields
`docHash`, `filename`, `filesize`, `mimeType`, `uploader`, none of which
carries raw file bytes, and the verify request body contains only
`docHash`. -/
theorem request_bodies (st : AppState) (f : File)
    (ro : RegisterOutcome) (vo : VerifyOutcome)
    (hd : st.docHash ≠ "") (hf : st.file = some f) :
    (handleRegister st ro).2 = [ApiRequest.registerReq (registerPayload st.docHash f)] ∧
    (registerPayload st.docHash f).map Prod.fst =
      ["docHash", "filename", "filesize", "mimeType", "uploader"] ∧
    (∀ kv ∈ registerPayload st.docHash f, ∀ bs : List Nat, kv.2 ≠ JsonVal.bytes bs) ∧
    (handleVerify st vo).2 = [ApiRequest.verifyReq [("docHash", JsonVal.str st.docHash)]] := by
  refine ⟨?_, rfl, ?_, ?_⟩
  · unfold handleRegister; rw [hf]; simp [hd]
  · intro kv hkv bs
    simp only [registerPayload, List.mem_cons, List.not_mem_nil, or_false] at hkv
    rcases hkv with rfl | rfl | rfl | rfl | rfl <;> simp
  · unfold handleVerify; rw [hf]; simp [hd]

/-- Claim C7, witness: the concrete request bodies issued from a ready
state. -/
theorem request_bodies_witness :
    (handleRegister readyState
        (.success { receipt := { transactionHash := "0xabc" } })).2 =
      [ApiRequest.registerReq (registerPayload readyState.docHash fileA)] ∧
    (registerPayload readyState.docHash fileA).map Prod.fst =
      ["docHash", "filename", "filesize", "mimeType", "uploader"] ∧
    (∀ kv ∈ registerPayload readyState.docHash fileA, ∀ bs : List Nat, kv.2 ≠ JsonVal.bytes bs) ∧
    (handleVerify readyState
        (.success { status := "NOT_FOUND", onChainData := none, offChainData := none })).2 =
      [ApiRequest.verifyReq [("docHash", JsonVal.str readyState.docHash)]] :=
  request_bodies readyState fileA _ _ (by decide) rfl

/-- Claim C8, counterexample: an error response that carries the (empty)
backend message `""` does not surface that backend message — the
transport message is used instead, because the JS fallback treats every
falsy value, including a present empty string, as absent. -/
theorem empty_backend_message_counterexample :
    (handleRegister readyState
        (.failure { responseMessage := some "", message := "Network Error" })).1.errorMessage =
      "Registration Failed: Network Error" ∧
    ("Registration Failed: Network Error" : String) ≠ "Registration Failed: " ++ "" := by
  exact ⟨rfl, by decide⟩

/-- Claim C8 (amended): the surfaced error message is the action prefix
followed by the backend-provided message when the error response carries
a non-empty one, and otherwise by the transport error's own message (a
present but empty backend message is treated as absent). -/
theorem failed_action_error_message (st : AppState) (f : File) (error : RequestError)
    (hd : st.docHash ≠ "") (hf : st.file = some f) :
    (∀ m, error.responseMessage = some m → m ≠ "" →
      (handleRegister st (.failure error)).1.errorMessage = "Registration Failed: " ++ m ∧
      (handleVerify st (.failure error)).1.errorMessage = "Verification Failed: " ++ m) ∧
    ((error.responseMessage = none ∨ error.responseMessage = some "") →
      (handleRegister st (.failure error)).1.errorMessage =
        "Registration Failed: " ++ error.message ∧
      (handleVerify st (.failure error)).1.errorMessage =
        "Verification Failed: " ++ error.message) := by
  unfold handleRegister handleVerify
  rw [hf]
  simp only [if_neg hd]
  constructor
  · intro m hm hne
    simp [extractErrorMessage, hm, hne]
  · rintro (hm | hm) <;> simp [extractErrorMessage, hm]

/-- Claim C8 (amended), witness: a non-empty backend message `"dup"` is
surfaced in preference to the transport message, and with no backend
message at all the transport message `"Network Error"` is surfaced. -/
theorem failed_action_error_message_witness :
    (handleRegister readyState
        (.failure { responseMessage := some "dup", message := "Request failed" })).1.errorMessage =
      "Registration Failed: " ++ "dup" ∧
    (handleVerify readyState
        (.failure { responseMessage := none, message := "Network Error" })).1.errorMessage =
      "Verification Failed: " ++ "Network Error" :=
  ⟨((failed_action_error_message readyState fileA
      { responseMessage := some "dup", message := "Request failed" }
      (by decide) rfl).1 "dup" rfl (by decide)).1,
   ((failed_action_error_message readyState fileA
      { responseMessage := none, message := "Network Error" }
      (by decide) rfl).2 (Or.inl rfl)).2⟩

/-- Claim C9: a selection event that delivers no file clears the selected
file, the digest and the status line, but leaves the previous result
details and the previous error message unchanged. -/
theorem no_file_selected_keeps_results (st : AppState) (out : HashOutcome) :
    (handleFileChange st none out).file = none ∧
    (handleFileChange st none out).docHash = "" ∧
    (handleFileChange st none out).status = "Select a file to begin..." ∧
    (handleFileChange st none out).result = st.result ∧
    (handleFileChange st none out).errorMessage = st.errorMessage :=
  ⟨rfl, rfl, rfl, rfl, rfl⟩

/-- Claim C10: every run of the hashing step terminates with the
in-flight flag `loading` equal to `false`, from any starting state and
on the success path as well as every failure path; likewise every
guard-passing run of the register or verify action. -/
theorem loading_cleared (st : AppState) (f : File) (out : HashOutcome)
    (ro : RegisterOutcome) (vo : VerifyOutcome) :
    (handleFileChange st (some f) out).loading = false ∧
    (st.docHash ≠ "" → st.file = some f →
      (handleRegister st ro).1.loading = false ∧
      (handleVerify st vo).1.loading = false) := by
  refine ⟨by cases out <;> rfl, fun hd hf => ⟨?_, ?_⟩⟩
  · unfold handleRegister; rw [hf]; simp [hd]
  · unfold handleVerify; rw [hf]; simp [hd]

/-- Claim C10, witness: a first-selection hashing run from the initial
state (empty digest, no file) and guard-passing register and verify runs
from a ready state all end with `loading = false`. -/
theorem loading_cleared_witness :
    (handleFileChange initialState (some fileA) (.failure "boom")).loading = false ∧
    (handleRegister readyState
        (.failure { responseMessage := none, message := "down" })).1.loading = false ∧
    (handleVerify readyState
        (.failure { responseMessage := none, message := "down" })).1.loading = false :=
  ⟨(loading_cleared initialState fileA (.failure "boom")
      (.failure { responseMessage := none, message := "down" })
      (.failure { responseMessage := none, message := "down" })).1,
   ((loading_cleared readyState fileA (.failure "boom")
      (.failure { responseMessage := none, message := "down" })
      (.failure { responseMessage := none, message := "down" })).2 (by decide) rfl).1,
   ((loading_cleared readyState fileA (.failure "boom")
      (.failure { responseMessage := none, message := "down" })
      (.failure { responseMessage := none, message := "down" })).2 (by decide) rfl).2⟩
